import Mathlib

/-!
Shallow embedding of the vote-casting-and-reconciliation core of the
decentralized-blockchain-voting repository, together with theorems that
settle the frozen claims about it.

Embedded source files:
- `voting/emailjs_service.py`   (challenge service: verification codes)
- `blockchain/blockchain_client.py` (ledger client, audit engine)
- `voting/views.py` `CastVoteView.post` (vote submission coordinator)
- `voting/models.py` / `blockchain/models.py` (stored record shapes and
  their declared database constraints)

External effects (the Django cache, the web3 RPC endpoint, `time.time()`,
`hashlib.sha256`) are modelled as explicit parameters: a call that may
raise a Python exception is an `Except Unit _` value, and the hash and
clock are opaque function/string parameters carried in an environment
record.  All definitions are executable.
-/

namespace VotingSpec

/-! ## Challenge service — `voting/emailjs_service.py`

The cache entry stored by `store_verification_code` is the dict
`{'code': ..., 'created_at': ..., 'attempts': 0}`.  `created_at` is only
read by `get_verification_status`; expiry is enacted by the cache TTL
(an expired or deleted entry reads back as `None`), so the live entry is
modelled as `code` plus `attempts`, and an absent/expired entry as
`none`. -/

structure VData where
  code : String
  attempts : Nat
  deriving DecidableEq, Repr

/-- Outcomes of `EmailJSService.verify_code`, keyed by the `error_code`
field of the returned dict (`success: True` is `verified`). -/
inductive VerifyOutcome where
  | verified
  | codeNotFound
  | maxAttemptsExceeded
  | invalidCode (remainingAttempts : Nat)
  | systemError
  deriving DecidableEq, Repr

/-- `EmailJSService.max_attempts` (set in `__init__`). -/
def maxAttempts : Nat := 3

/-- `EmailJSService.get_verification_data`: `cache.get(...)` wrapped in a
`try/except` that logs and returns `None` on any exception.  `readRaises`
models the `cache.get` call raising; the stored entry itself (`store`) is
untouched by a failed read. -/
def get_verification_data (store : Option VData) (readRaises : Bool) : Option VData :=
  if readRaises then none else store

/-- `EmailJSService.verify_code`.  Mirrors the source flow:
1. `get_verification_data`; `None` → `CODE_NOT_FOUND` (this is also what a
   raising `cache.get` produces, because `get_verification_data` swallows
   the exception);
2. `attempts >= max_attempts` → `clear_verification_code` and
   `MAX_ATTEMPTS_EXCEEDED`;
3. `attempts += 1` and `cache.set` the updated dict (a raise here is
   caught by `verify_code`'s own handler → `SYSTEM_ERROR`, with the cache
   entry unchanged since the write failed);
4. compare codes: match → clear and success; mismatch → `INVALID_CODE`
   with `max_attempts - attempts` remaining.
Returns the outcome together with the cache entry after the call. -/
def verify_code (store : Option VData) (readRaises setRaises : Bool)
    (provided : String) : VerifyOutcome × Option VData :=
  match get_verification_data store readRaises with
  | none => (.codeNotFound, store)
  | some d =>
    if maxAttempts ≤ d.attempts then
      (.maxAttemptsExceeded, none)
    else if setRaises then
      (.systemError, store)
    else
      let d' : VData := { d with attempts := d.attempts + 1 }
      if d'.code == provided then
        (.verified, none)
      else
        (.invalidCode (maxAttempts - d'.attempts), some d')

/-- Outcomes of `EmailJSService.send_verification_email`, keyed by its
`error_code` field. -/
inductive IssueOutcome where
  | notConfigured
  | storageError
  | issued
  deriving DecidableEq, Repr

/-- `EmailJSService.store_verification_code`: `cache.set` wrapped in a
`try/except` returning `False` on any exception. -/
def store_verification_code (storeRaises : Bool) : Bool :=
  !storeRaises

/-- `EmailJSService.send_verification_email` (the issue path of the
challenge service), storage behaviour only: if not configured →
`NOT_CONFIGURED`; when no code is supplied by the caller it generates one
and stores it, and a store failure → `STORAGE_ERROR`; otherwise the
EmailJS config is returned (success). -/
def send_verification_email (configured codeProvided storeRaises : Bool) : IssueOutcome :=
  if !configured then
    .notConfigured
  else if !codeProvided && !(store_verification_code storeRaises) then
    .storageError
  else
    .issued

/-! ## Ledger client — `blockchain/blockchain_client.py`

The environment bundles the outcomes of the underlying web3 calls made by
one `cast_vote_on_blockchain` run.  An `Except.error ()` value models the
Python call raising an exception at that call site.  `sha256hex` models
`hashlib.sha256(...).hexdigest()`, `nowStr` the text that the f-string
interpolation of `time.time()` produces, and `nowInt` `int(time.time())`.
The functions also return the list of RPC operations they attempted, in
order, so that "this call never reaches the ledger" is a statement about
the returned trace. -/

inductive RpcOp where
  | getLatestBlock
  | hasVoted
  | isVotingActive
  | estimateGas
  | broadcast
  deriving DecidableEq, Repr

/-- The observable outcome of the build/sign/send/wait-for-receipt block
of `cast_vote_on_blockchain` when no exception is raised in it. -/
structure BroadcastOutcome where
  txHash : String
  receiptStatus : Nat
  blockNumber : Nat
  deriving DecidableEq, Repr

structure ChainEnv where
  /-- `self.contract` is not `None` (a contract address was configured and
  `load_contract` succeeded). -/
  contractLoaded : Bool
  /-- result of `test_connection` (`w3.eth.get_block('latest')` succeeding). -/
  connectionOk : Bool
  /-- `contract.functions.hasVoted(hash).call()`, keyed by the voter hash. -/
  hasVotedCall : String → Except Unit Bool
  /-- `contract.functions.isVotingActive().call()`. -/
  votingActiveCall : Except Unit Bool
  /-- `contract.functions.castVote(...).estimate_gas(...)`. -/
  gasEstimateCall : Except Unit Nat
  /-- the build/sign/`send_raw_transaction`/`wait_for_transaction_receipt`
  phase: `Except.error ()` models any exception raised in it. -/
  broadcastCall : Except Unit BroadcastOutcome
  /-- `hashlib.sha256(s.encode()).hexdigest()`. -/
  sha256hex : String → String
  /-- the text of `time.time()` as interpolated into the f-string. -/
  nowStr : String
  /-- `int(time.time())`. -/
  nowInt : Nat
  /-- `settings.SECRET_KEY`, the salt of `generate_voter_hash`. -/
  salt : String

/-- `BlockchainClient.test_connection`: fetches the latest block, `True`
on success, `False` on any exception (the fetch is attempted either
way). -/
def test_connection (env : ChainEnv) : Bool × List RpcOp :=
  (env.connectionOk, [.getLatestBlock])

/-- `BlockchainClient.has_voter_voted`: returns `False` when no contract
is loaded (without any RPC), otherwise calls `hasVoted` and returns
`False` on any exception.  The function never raises: the `try/except`
converts every failure into the boolean `False`. -/
def has_voter_voted (env : ChainEnv) (voterHash : String) : Bool × List RpcOp :=
  if !env.contractLoaded then
    (false, [])
  else
    match env.hasVotedCall voterHash with
    | .ok b => (b, [.hasVoted])
    | .error _ => (false, [.hasVoted])

/-- `BlockchainClient.generate_voter_hash`: SHA-256 of
`email ++ aadhaar_number ++ id ++ SECRET_KEY`, hex, prefixed `0x`. -/
def generate_voter_hash (env : ChainEnv) (email aadhaar id : String) : String :=
  "0x" ++ env.sha256hex (email ++ aadhaar ++ id ++ env.salt)

/-- The simulated placeholder transaction identifier:
`"0x" + sha256(f"{voter_hash}{party_id}{time.time()}").hexdigest()`. -/
def simulatedTxHash (env : ChainEnv) (voterHash partyId : String) : String :=
  "0x" ++ env.sha256hex (voterHash ++ partyId ++ env.nowStr)

/-- The dict returned by `cast_vote_on_blockchain` (absent keys are
`none`).  Every code path of the Python function returns such a dict;
none raises, so the embedding needs no error alternative. -/
structure CastResult where
  success : Bool
  transactionHash : Option String
  blockNumber : Option Nat
  message : String
  deriving DecidableEq, Repr

/-- The simulated-success dict built at the three degrade sites of
`cast_vote_on_blockchain` (not-configured, connection-failed, and the
top-level exception handler): `success: True`, placeholder hash, and
`int(time.time()) % 1000000` as block number. -/
def simulatedResult (env : ChainEnv) (voterHash partyId msg : String) : CastResult :=
  { success := true
    transactionHash := some (simulatedTxHash env voterHash partyId)
    blockNumber := some (env.nowInt % 1000000)
    message := msg }

/-- `BlockchainClient.cast_vote_on_blockchain`.  Source flow:
1. no contract → simulated success ("blockchain not configured"),
   returned before any RPC is attempted;
2. `test_connection` fails → simulated success ("connection failed");
3. `has_voter_voted` → `success: False` (already voted); note this helper
   absorbs its own exceptions and yields `False` instead of raising;
4. `isVotingActive` in its own `try/except`: an explicit `False` →
   `success: False` (voting not active); an exception is logged and the
   flow continues;
5. gas estimation, defaulting to 200000 on exception, buffered by 50000
   and capped at 500000;
6. build/sign/broadcast/wait: a receipt with status 1 → confirmed
   success; another status → `success: False`; an exception anywhere in
   this region reaches the function's top-level handler → simulated
   success ("simulated due to blockchain error").
The interpolated exception text in the degrade message is not modelled;
the message is the fixed prefix of that f-string. -/
def cast_vote_on_blockchain (env : ChainEnv) (voterHash partyId : String) :
    CastResult × List RpcOp :=
  if !env.contractLoaded then
    (simulatedResult env voterHash partyId
      "Vote recorded (simulated - blockchain not configured)", [])
  else
    let (connected, t0) := test_connection env
    if !connected then
      (simulatedResult env voterHash partyId
        "Vote recorded (simulated - connection failed)", t0)
    else
      let (hv, t1) := has_voter_voted env voterHash
      if hv then
        ({ success := false, transactionHash := none, blockNumber := none
           message := "Voter has already cast a vote on blockchain" }, t0 ++ t1)
      else
        match env.votingActiveCall with
        | .ok false =>
          ({ success := false, transactionHash := none, blockNumber := none
             message := "Voting is not currently active on the blockchain" },
           t0 ++ t1 ++ [.isVotingActive])
        | _ =>
          let gasEstimate :=
            match env.gasEstimateCall with
            | .ok g => g
            | .error _ => 200000
          let _gasLimit := min (gasEstimate + 50000) 500000
          match env.broadcastCall with
          | .error _ =>
            (simulatedResult env voterHash partyId
              "Vote recorded (simulated due to blockchain error)",
             t0 ++ t1 ++ [.isVotingActive, .estimateGas, .broadcast])
          | .ok b =>
            if b.receiptStatus == 1 then
              ({ success := true, transactionHash := some b.txHash
                 blockNumber := some b.blockNumber
                 message := "Vote successfully recorded on blockchain" },
               t0 ++ t1 ++ [.isVotingActive, .estimateGas, .broadcast])
            else
              ({ success := false, transactionHash := none, blockNumber := none
                 message := "Blockchain transaction failed" },
               t0 ++ t1 ++ [.isVotingActive, .estimateGas, .broadcast])

/-! ## Stored records and their declared constraints

`voting/models.py` `Vote`: rows `{voter, political_party, blockchain_hash,
blockchain_block_number, ...}` with `unique_together = ['voter',
'political_party']` and `blockchain_hash` `unique=True, null=True`
(NULLs never conflict).  There is no uniqueness declaration on `voter`
alone, and `blockchain/models.py` `VoteRecord` declares no uniqueness on
`voter_hash` at all. -/

structure VoteRow where
  voterId : String
  partyId : String
  blockchainHash : Option String
  blockchainBlockNumber : Option Nat
  deriving DecidableEq, Repr

/-- Two `Vote` rows are jointly admissible under the declared database
constraints: they must not share the `(voter, political_party)` pair
(`unique_together`), and must not share a non-NULL `blockchain_hash`. -/
def voteRowsCompatible (a b : VoteRow) : Bool :=
  !(a.voterId == b.voterId && a.partyId == b.partyId)
    && !(a.blockchainHash.isSome && b.blockchainHash.isSome
          && a.blockchainHash == b.blockchainHash)

/-- A `Vote` table state satisfies every constraint declared on the model. -/
def votesRespectDbConstraints : List VoteRow → Bool
  | [] => true
  | w :: rest => rest.all (voteRowsCompatible w) && votesRespectDbConstraints rest

/-- An insert succeeds at the storage layer iff the new row is compatible
with every committed row. -/
def voteInsertAllowed (votes : List VoteRow) (w : VoteRow) : Bool :=
  votes.all (fun old => voteRowsCompatible old w)

/-- Number of committed `Vote` rows of one voter. -/
def countVotesOfVoter (votes : List VoteRow) (voter : String) : Nat :=
  votes.countP (fun w => w.voterId == voter)

/-- Number of committed `Vote` rows of one voter for one party. -/
def countVotesOfVoterParty (votes : List VoteRow) (voter party : String) : Nat :=
  votes.countP (fun w => w.voterId == voter && w.partyId == party)

/-! ## Blockchain vote records and the audit engine

`blockchain/models.py` `VoteRecord` has fields `voter_hash`, `party_id`,
`vote_timestamp`, a required one-to-one `blockchain_transaction`, and
`merkle_proof`.  It has NO `is_verified` field: `is_verified` is a
read-only `@property` returning `blockchain_transaction.is_confirmed`,
which is `status == 'confirmed' and block_number is not None`.  The
embedding flattens the fields of the linked `BlockchainTransaction` that
this property reads into the record. -/

structure VoteRecord where
  voterHash : String
  partyId : String
  voteTimestamp : Nat
  txHash : String
  txStatus : String
  txBlockNumber : Option Nat
  deriving DecidableEq, Repr

/-- `BlockchainTransaction.is_confirmed`. -/
def voteRecord_tx_is_confirmed (r : VoteRecord) : Bool :=
  r.txStatus == "confirmed" && r.txBlockNumber.isSome

/-- The `VoteRecord.is_verified` read-only property. -/
def voteRecord_is_verified (r : VoteRecord) : Bool :=
  voteRecord_tx_is_confirmed r

/-- The loop of `audit_vote_integrity` over `VoteRecord.objects.all()`.
`verifyVote` is `verify_vote_on_blockchain` as a function of
`(voter_hash, party_id, transaction_hash)` — an oracle for the external
ledger's receipt/event data (that helper returns a Bool and absorbs its
own exceptions).  Per record: if the event verifies, `verified_count` is
incremented and then, when the record's `is_verified` property reads
`False`, the source executes `record.is_verified = True` — but
`is_verified` is a read-only `@property` with no setter on a model with
no such field, so this assignment raises `AttributeError` and
`record.save()` on the next line is never reached; the exception unwinds
to `audit_vote_integrity`'s top-level handler (modelled by the `none`
result).  If the event does not verify, `failed_count` is incremented.
The second component is the stored table after the loop: rows are carried
through unchanged, and on the raise the not-yet-visited rows are likewise
left as they were, since no `save()` ever executed. -/
def audit_loop (verifyVote : String → String → String → Bool) :
    List VoteRecord → Nat → Nat → Option (Nat × Nat) × List VoteRecord
  | [], v, f => (some (v, f), [])
  | r :: rs, v, f =>
    if verifyVote r.voterHash r.partyId r.txHash then
      let v' := v + 1
      if !voteRecord_is_verified r then
        (none, r :: rs)
      else
        let (res, rs') := audit_loop verifyVote rs v' f
        (res, r :: rs')
    else
      let (res, rs') := audit_loop verifyVote rs v f.succ
      (res, r :: rs')

/-- The dict returned by `audit_vote_integrity`. -/
structure AuditReport where
  totalRecords : Nat
  verifiedCount : Nat
  failedCount : Nat
  integrityPercentage : ℚ
  status : String
  deriving DecidableEq, Repr

/-- `BlockchainClient.audit_vote_integrity`: runs the loop over all
stored records; on normal completion `total_records = len(vote_records)`,
`integrity_percentage = verified_count / total_records * 100` (`100` when
there are no records) and `status = 'success' if integrity_percentage >
95 else 'warning'`; when the loop raises (see `audit_loop`), the handler
returns the zeroed `'error'` dict.  Returns the report together with the
stored table after the run. -/
def audit_vote_integrity (verifyVote : String → String → String → Bool)
    (store : List VoteRecord) : AuditReport × List VoteRecord :=
  match audit_loop verifyVote store 0 0 with
  | (none, store') =>
    ({ totalRecords := 0, verifiedCount := 0, failedCount := 0
       integrityPercentage := 0, status := "error" }, store')
  | (some (v, f), store') =>
    let total := store.length
    let pct : ℚ := if 0 < total then (v : ℚ) / (total : ℚ) * 100 else 100
    ({ totalRecords := total, verifiedCount := v, failedCount := f
       integrityPercentage := pct
       status := if 95 < pct then "success" else "warning" }, store')

/-! ## Vote submission coordinator — `voting/views.py` `CastVoteView.post` -/

/-- The columns of `voting/models.py` `Voter` that the coordinator reads
or writes. -/
structure Voter where
  id : String
  email : String
  aadhaarNumber : String
  isActive : Bool
  hasVoted : Bool
  deriving DecidableEq, Repr

/-- The local store as the coordinator sees it: active voters, the
`party_id` values of active `PoliticalParty` rows, the `Vote` table, the
blockchain `VoteRecord` table, and whether an active `VotingSession` row
currently covers `timezone.now()`. -/
structure LocalDB where
  voters : List Voter
  partyIds : List String
  votes : List VoteRow
  voteRecords : List VoteRecord
  activeSessionExists : Bool
  deriving DecidableEq, Repr

/-- The request data `CastVoteView.post` reads: the posted `party_id` and
the session's `verified_voter_email` (absent keys are `none`). -/
structure PostRequest where
  partyId : Option String
  sessionVerifiedEmail : Option String
  deriving DecidableEq, Repr

/-- The JSON responses of `CastVoteView.post`, keyed by their `message`
text. -/
inductive PostResponse where
  | partyIdRequired
  | voterNotVerified
  | voterNotFound
  | invalidPartySelection
  | alreadyVotedLocally
  | alreadyVotedOnLedger
  | noActiveVotingSession
  | blockchainVoteFailed (msg : String)
  | voteCastSuccessfully (txHash : Option String)
  deriving DecidableEq, Repr

/-- `Voter.objects.get(email=..., is_active=True)` as a lookup in the
modelled table. -/
def findVoter (db : LocalDB) (email : String) : Option Voter :=
  db.voters.find? (fun v => v.email == email && v.isActive)

/-- `CastVoteView.post`.  Source flow:
1. no `party_id` → "Party ID is required";
2. no `verified_voter_email` in the session → not verified;
3. voter lookup (active) → "Voter not found"; party lookup (active) →
   "Invalid party selection";
4. `Vote.objects.filter(voter=voter).exists()` → "You have already cast
   your vote" — this local duplicate check runs before any ledger call;
5. `generate_voter_hash`, then `has_voter_voted` → duplicate on ledger;
6. no active `VotingSession` covering now → "No active voting session";
7. inside `transaction.atomic()`: `cast_vote_on_blockchain` first; a
   result with `success` false → "Blockchain vote failed: ..." returned
   with no local row yet written;
8. only then the local mutations: create the `Vote` row, set the voter's
   `has_voted` flag (and `voted_at`), call `create_vote_record`, clear
   the verification session keys, and answer success.
`createVoteRecordResult` stands for the value `create_vote_record`
produces: that helper passes an `is_verified` keyword that matches no
model field, so depending on the ORM version the create raises (caught;
`None`, nothing stored) or drops the keyword and stores a record; no
claim depends on which.  The session-key clearing touches only the
session dict and is not part of the modelled state.  Returns the
response, the local store after the call, and the trace of ledger RPC
operations performed. -/
def post (env : ChainEnv) (createVoteRecordResult : Option VoteRecord)
    (db : LocalDB) (req : PostRequest) :
    PostResponse × LocalDB × List RpcOp :=
  match req.partyId with
  | none => (.partyIdRequired, db, [])
  | some pid =>
    match req.sessionVerifiedEmail with
    | none => (.voterNotVerified, db, [])
    | some email =>
      match findVoter db email with
      | none => (.voterNotFound, db, [])
      | some voter =>
        if !(db.partyIds.contains pid) then
          (.invalidPartySelection, db, [])
        else if db.votes.any (fun w => w.voterId == voter.id) then
          (.alreadyVotedLocally, db, [])
        else
          let voterHash := generate_voter_hash env voter.email voter.aadhaarNumber voter.id
          let (hv, t1) := has_voter_voted env voterHash
          if hv then
            (.alreadyVotedOnLedger, db, t1)
          else if !db.activeSessionExists then
            (.noActiveVotingSession, db, t1)
          else
            let (res, t2) := cast_vote_on_blockchain env voterHash pid
            if !res.success then
              (.blockchainVoteFailed res.message, db, t1 ++ t2)
            else
              let vote : VoteRow :=
                { voterId := voter.id, partyId := pid
                  blockchainHash := res.transactionHash
                  blockchainBlockNumber := res.blockNumber }
              let voters' := db.voters.map
                (fun u => if u.id == voter.id then { u with hasVoted := true } else u)
              let voteRecords' :=
                match createVoteRecordResult with
                | some r => db.voteRecords ++ [r]
                | none => db.voteRecords
              let db' : LocalDB :=
                { db with
                  votes := db.votes ++ [vote]
                  voters := voters'
                  voteRecords := voteRecords' }
              (.voteCastSuccessfully res.transactionHash, db', t1 ++ t2)

/-! ## Concrete scenario inputs used by the claim theorems -/

/-- The challenge of the spec's scenario: identity `H1` holds code
`482913`, no attempt used yet. -/
def c4Store0 : Option VData := some { code := "482913", attempts := 0 }

/-- First verify with the wrong code `482910` (no cache failures). -/
def c4r1 : VerifyOutcome × Option VData := verify_code c4Store0 false false "482910"

/-- Second verify with the wrong code. -/
def c4r2 : VerifyOutcome × Option VData := verify_code c4r1.2 false false "482910"

/-- Third verify with the wrong code. -/
def c4r3 : VerifyOutcome × Option VData := verify_code c4r2.2 false false "482910"

/-- Fourth verify, now with the correct code `482913`. -/
def c4r4 : VerifyOutcome × Option VData := verify_code c4r3.2 false false "482913"

/-- Fifth verify, again with the correct code. -/
def c4r5 : VerifyOutcome × Option VData := verify_code c4r4.2 false false "482913"

/-- An environment in which the contract is loaded, the connectivity
probe and the `hasVoted` re-check succeed, the `isVotingActive` RPC call
RAISES, and the broadcast succeeds with a status-1 receipt for hash
`0xonchain` in block 42. -/
def c2Env : ChainEnv :=
  { contractLoaded := true
    connectionOk := true
    hasVotedCall := fun _ => .ok false
    votingActiveCall := .error ()
    gasEstimateCall := .ok 100000
    broadcastCall := .ok { txHash := "0xonchain", receiptStatus := 1, blockNumber := 42 }
    sha256hex := fun _ => "feedface"
    nowStr := "1700000000.25"
    nowInt := 1700000000
    salt := "s3cr3t" }

/-- An environment with no contract configured, whose ledger would answer
`hasVoted = True` for every identity, a failing probe, and a broadcast
that would raise — none of which can be reached. -/
def c10Env : ChainEnv :=
  { contractLoaded := false
    connectionOk := false
    hasVotedCall := fun _ => .ok true
    votingActiveCall := .ok true
    gasEstimateCall := .error ()
    broadcastCall := .error ()
    sha256hex := fun s => "h" ++ s
    nowStr := "1700000001.5"
    nowInt := 1700000001
    salt := "s3cr3t" }

/-- A committed vote record whose ledger event matches and whose linked
transaction is confirmed. -/
def auditGoodRecord : VoteRecord :=
  { voterHash := "0xgood", partyId := "P1", voteTimestamp := 1700000000
    txHash := "0xt1", txStatus := "confirmed", txBlockNumber := some 7 }

/-- A committed vote record whose ledger event does not match. -/
def auditBadRecord : VoteRecord :=
  { voterHash := "0xbad", partyId := "P2", voteTimestamp := 1700000000
    txHash := "0xt2", txStatus := "confirmed", txBlockNumber := some 8 }

/-- The audit scenario of the spec: 100 committed votes, 95 of which have
matching ledger events and 5 of which do not. -/
def auditScenarioRecords : List VoteRecord :=
  List.replicate 95 auditGoodRecord ++ List.replicate 5 auditBadRecord

/-- The ledger oracle of that scenario: `verify_vote_on_blockchain`
confirms exactly the events of party `P1`. -/
def auditScenarioOracle : String → String → String → Bool :=
  fun _ partyId _ => partyId == "P1"

/-- A registered, active voter. -/
def cVoter : Voter :=
  { id := "id1", email := "a@b.example", aadhaarNumber := "123456789012",
    isActive := true, hasVoted := true }

/-- A local store in which `cVoter` has already committed a vote for
party `P1`. -/
def cDbVoted : LocalDB :=
  { voters := [cVoter]
    partyIds := ["P1"]
    votes := [{ voterId := "id1", partyId := "P1", blockchainHash := some "0xdead",
                blockchainBlockNumber := some 1 }]
    voteRecords := []
    activeSessionExists := true }

/-- A local store in which `cVoter` has not voted yet. -/
def cDbFresh : LocalDB :=
  { voters := [{ cVoter with hasVoted := false }]
    partyIds := ["P1"]
    votes := []
    voteRecords := []
    activeSessionExists := true }

/-- An environment whose ledger contract reports that voting is not
active, so `cast_vote_on_blockchain` answers `success: False`. -/
def cRejectEnv : ChainEnv :=
  { c2Env with votingActiveCall := .ok false }

/-! ## Theorems -/

/-- C4 counterexample: with a live challenge holding code `482913` and
`max_attempts = 3`, the THIRD submission of the wrong code `482910` does
not yield `MaxAttemptsExceeded` as the claim states: because the
attempts-exhausted check compares the counter before incrementing it, the
third call increments `attempts` to 3 and still reports a mismatch, with
0 attempts remaining. -/
theorem verify_code_third_wrong_attempt_is_mismatch :
    c4r3.1 = VerifyOutcome.invalidCode 0
      ∧ VerifyOutcome.invalidCode 0 ≠ VerifyOutcome.maxAttemptsExceeded := by
  decide

/-- C4 amended: verifying with a wrong code three times yields
`Mismatch(remaining = 2)`, `Mismatch(remaining = 1)`,
`Mismatch(remaining = 0)`; the FOURTH call — even with the correct code —
yields `MaxAttemptsExceeded` and purges the challenge, and a FIFTH call
yields `CodeNotFound`.  In general, when a live challenge has
`attempts < max_attempts` and the codes differ, `verify_code` increments
and persists the attempt counter before comparing and reports a mismatch
with `max_attempts - attempts` (post-increment) remaining. -/
theorem verify_code_attempt_exhaustion_schedule :
    (c4r1.1 = VerifyOutcome.invalidCode 2
      ∧ c4r2.1 = VerifyOutcome.invalidCode 1
      ∧ c4r3.1 = VerifyOutcome.invalidCode 0
      ∧ c4r4.1 = VerifyOutcome.maxAttemptsExceeded ∧ c4r4.2 = none
      ∧ c4r5.1 = VerifyOutcome.codeNotFound)
    ∧ ∀ (d : VData) (provided : String),
        d.attempts < maxAttempts → (d.code == provided) = false →
        verify_code (some d) false false provided =
          (VerifyOutcome.invalidCode (maxAttempts - (d.attempts + 1)),
           some { d with attempts := d.attempts + 1 }) := by
  refine ⟨by decide, ?_⟩
  intro d provided hlt hne
  simp [verify_code, get_verification_data, Nat.not_le.mpr hlt, hne]

/-- C4 witness: the general mismatch rule of the amended claim at a
concrete input. -/
theorem verify_code_attempt_exhaustion_schedule_witness :
    verify_code (some { code := "111111", attempts := 1 }) false false "222222" =
      (VerifyOutcome.invalidCode 1, some { code := "111111", attempts := 2 }) :=
  verify_code_attempt_exhaustion_schedule.2
    { code := "111111", attempts := 1 } "222222" (by decide) (by decide)

/-- C7 counterexample: a challenge-store read that raises during verify
is reported as `CodeNotFound`, not as a distinct storage error: with a
live challenge for the identity and a raising `cache.get`, `verify_code`
answers `CODE_NOT_FOUND`, indistinguishable from a missing or expired
challenge. -/
theorem verify_code_read_failure_reported_as_not_found :
    (verify_code (some { code := "482913", attempts := 0 }) true false "482913").1 =
      VerifyOutcome.codeNotFound
      ∧ VerifyOutcome.codeNotFound ≠ VerifyOutcome.systemError := by
  decide

/-- C7 amended: a storage failure while storing a fresh code during issue
is reported as the distinct `StorageError`; but a storage failure while
READING the challenge during verify is swallowed by
`get_verification_data` and reported as `CodeNotFound` for every store
state and every provided code, indistinguishable from a missing or
expired challenge; only an exception raised inside `verify_code`'s own
body after a successful read (the `cache.set` persisting the incremented
counter) yields the distinct `SystemError`. -/
theorem challenge_storage_failure_reporting :
    (send_verification_email true false true = IssueOutcome.storageError)
    ∧ (∀ (store : Option VData) (setRaises : Bool) (provided : String),
        verify_code store true setRaises provided = (VerifyOutcome.codeNotFound, store))
    ∧ ∀ (d : VData) (provided : String),
        d.attempts < maxAttempts →
        verify_code (some d) false true provided = (VerifyOutcome.systemError, some d) := by
  refine ⟨by decide, ?_, ?_⟩
  · intro store setRaises provided
    simp [verify_code, get_verification_data]
  · intro d provided hlt
    simp [verify_code, get_verification_data, Nat.not_le.mpr hlt]

/-- C7 witness: the amended claim at concrete inputs — a raising read
with a live challenge answers `CodeNotFound`, and a raising persist
answers `SystemError`. -/
theorem challenge_storage_failure_reporting_witness :
    verify_code (some { code := "123456", attempts := 2 }) true false "123456" =
      (VerifyOutcome.codeNotFound, some { code := "123456", attempts := 2 })
    ∧ verify_code (some { code := "123456", attempts := 2 }) false true "123456" =
      (VerifyOutcome.systemError, some { code := "123456", attempts := 2 }) :=
  ⟨challenge_storage_failure_reporting.2.1
      (some { code := "123456", attempts := 2 }) false "123456",
   challenge_storage_failure_reporting.2.2
      { code := "123456", attempts := 2 } "123456" (by decide)⟩

/-- C1 counterexample: the database constraints declared on the `Vote`
model do NOT bound the committed votes per voter identity by 1: the
uniqueness constraint is `unique_together = ['voter', 'political_party']`,
so a table holding two votes by voter `V1` for two different parties
satisfies every declared storage-layer constraint while `V1`'s vote count
is 2. -/
theorem vote_storage_constraint_not_voter_unique :
    ¬ (∀ (votes : List VoteRow), votesRespectDbConstraints votes = true →
         ∀ voter, countVotesOfVoter votes voter ≤ 1) := by
  intro hclaim
  exact absurd
    (hclaim
      [{ voterId := "V1", partyId := "P1", blockchainHash := none,
         blockchainBlockNumber := none },
       { voterId := "V1", partyId := "P2", blockchainHash := none,
         blockchainBlockNumber := none }]
      (by decide) "V1")
    (by decide)

/-- C1 amended: the storage layer enforces uniqueness on the
`(voter, political_party)` PAIR, not on the voter alone: any table state
satisfying the declared constraints holds at most one vote per voter per
party, and a second insert for the same voter with the SAME party always
fails the constraint check; a second insert for the same voter with a
different party is not stopped by the storage layer (see the
counterexample) and only the application-level existence check in
`CastVoteView.post` prevents it. -/
theorem vote_uniqueness_is_per_voter_party :
    (∀ (votes : List VoteRow), votesRespectDbConstraints votes = true →
        ∀ voter party, countVotesOfVoterParty votes voter party ≤ 1)
    ∧ ∀ (votes : List VoteRow) (w w' : VoteRow), w ∈ votes →
        w'.voterId = w.voterId → w'.partyId = w.partyId →
        voteInsertAllowed votes w' = false := by
  constructor
  · intro votes
    induction votes with
    | nil => intro _ voter party; simp [countVotesOfVoterParty]
    | cons a rest ih =>
      intro h voter party
      rw [votesRespectDbConstraints, Bool.and_eq_true] at h
      obtain ⟨hall, hrest⟩ := h
      cases hp : (a.voterId == voter && a.partyId == party) with
      | false =>
        simpa [countVotesOfVoterParty, List.countP_cons, hp] using
          ih hrest voter party
      | true =>
        have hzero :
            rest.countP (fun w => w.voterId == voter && w.partyId == party) = 0 := by
          rw [List.countP_eq_zero]
          intro r hr habs
          have hcomp := List.all_eq_true.mp hall r hr
          rw [voteRowsCompatible, Bool.and_eq_true] at hcomp
          obtain ⟨h1, -⟩ := hcomp
          rw [Bool.and_eq_true] at hp habs
          obtain ⟨hv, hpp⟩ := hp
          obtain ⟨hv', hp'⟩ := habs
          rw [beq_iff_eq] at hv hpp hv' hp'
          have : (a.voterId == r.voterId && a.partyId == r.partyId) = true := by
            rw [Bool.and_eq_true, beq_iff_eq, beq_iff_eq]
            exact ⟨by rw [hv, hv'], by rw [hpp, hp']⟩
          simp [this] at h1
        simp [countVotesOfVoterParty, List.countP_cons, hp, hzero]
  · intro votes w w' hmem hv hp
    by_contra hall
    rw [Bool.not_eq_false, voteInsertAllowed] at hall
    have hc := List.all_eq_true.mp hall w hmem
    rw [voteRowsCompatible, Bool.and_eq_true] at hc
    obtain ⟨h1, -⟩ := hc
    have : (w.voterId == w'.voterId && w.partyId == w'.partyId) = true := by
      rw [Bool.and_eq_true, beq_iff_eq, beq_iff_eq]
      exact ⟨hv.symm, hp.symm⟩
    simp [this] at h1

/-- C1 witness: the amended claim at a concrete table — one committed
vote for `(V1, P1)` is within the bound, and re-inserting `(V1, P1)`
fails the storage-layer constraint. -/
theorem vote_uniqueness_is_per_voter_party_witness :
    countVotesOfVoterParty
      [{ voterId := "V1", partyId := "P1", blockchainHash := none,
         blockchainBlockNumber := none }] "V1" "P1" ≤ 1
    ∧ voteInsertAllowed
      [{ voterId := "V1", partyId := "P1", blockchainHash := none,
         blockchainBlockNumber := none }]
      { voterId := "V1", partyId := "P1", blockchainHash := some "0xh",
        blockchainBlockNumber := some 3 } = false :=
  ⟨vote_uniqueness_is_per_voter_party.1
      [{ voterId := "V1", partyId := "P1", blockchainHash := none,
         blockchainBlockNumber := none }] (by decide) "V1" "P1",
   vote_uniqueness_is_per_voter_party.2
      [{ voterId := "V1", partyId := "P1", blockchainHash := none,
         blockchainBlockNumber := none }]
      { voterId := "V1", partyId := "P1", blockchainHash := none,
        blockchainBlockNumber := none }
      { voterId := "V1", partyId := "P1", blockchainHash := some "0xh",
        blockchainBlockNumber := some 3 }
      (by simp) rfl rfl⟩

/-- C9: `has_voter_voted` answers `False` whenever no contract is loaded
and whenever the underlying `hasVoted` RPC call raises (the embedding is
a total function into `Bool`, mirroring that the `try/except` lets no
exception escape); moreover that failure answer is literally the same
value a healthy ledger returns for an identity that has not voted, so the
caller cannot distinguish the two. -/
theorem has_voter_voted_fails_closed (env : ChainEnv) (voterHash : String) :
    (env.contractLoaded = false → (has_voter_voted env voterHash).1 = false)
    ∧ (env.hasVotedCall voterHash = .error () → (has_voter_voted env voterHash).1 = false)
    ∧ ∀ env' : ChainEnv, env'.contractLoaded = true →
        env'.hasVotedCall voterHash = .ok false →
        (env.contractLoaded = false ∨ env.hasVotedCall voterHash = .error ()) →
        (has_voter_voted env voterHash).1 = (has_voter_voted env' voterHash).1 := by
  refine ⟨fun h => by simp [has_voter_voted, h], fun h => ?_, ?_⟩
  · by_cases hc : env.contractLoaded
    · simp [has_voter_voted, hc, h]
    · simp [has_voter_voted, hc]
  · intro env' h1 h2 h3
    have hr : (has_voter_voted env' voterHash).1 = false := by
      simp [has_voter_voted, h1, h2]
    rcases h3 with h | h
    · simp [has_voter_voted, h, h1, h2]
    · by_cases hc : env.contractLoaded
      · simp [has_voter_voted, hc, h, h1, h2]
      · simp [has_voter_voted, hc, h1, h2]

/-- C9 witness: a concrete environment with no contract, and one with a
contract whose `hasVoted` call raises, both answer `False`, equal to the
answer of a healthy environment whose ledger genuinely says
"not voted". -/
theorem has_voter_voted_fails_closed_witness :
    (has_voter_voted { c2Env with contractLoaded := false } "0xv").1 = false
    ∧ (has_voter_voted { c2Env with hasVotedCall := fun _ => .error () } "0xv").1 =
        (has_voter_voted c2Env "0xv").1 :=
  ⟨(has_voter_voted_fails_closed { c2Env with contractLoaded := false } "0xv").1 rfl,
   (has_voter_voted_fails_closed { c2Env with hasVotedCall := fun _ => .error () }
      "0xv").2.2 c2Env rfl rfl (Or.inr rfl)⟩

/-- C10: with no contract configured, `cast_vote_on_blockchain` returns
the simulated success ("blockchain not configured") with the placeholder
transaction hash and `int(time.time()) % 1000000` as block number, and
its RPC trace is empty — in particular it never performs the `hasVoted`
re-check nor the `isVotingActive` check, so even an identity the ledger
has already recorded receives a successful simulated submission. -/
theorem cast_vote_simulates_when_unconfigured (env : ChainEnv)
    (voterHash partyId : String) (h : env.contractLoaded = false) :
    cast_vote_on_blockchain env voterHash partyId =
      (simulatedResult env voterHash partyId
        "Vote recorded (simulated - blockchain not configured)", [])
    ∧ RpcOp.hasVoted ∉ (cast_vote_on_blockchain env voterHash partyId).2
    ∧ RpcOp.isVotingActive ∉ (cast_vote_on_blockchain env voterHash partyId).2 := by
  refine ⟨by simp [cast_vote_on_blockchain, h], ?_, ?_⟩ <;>
    simp [cast_vote_on_blockchain, h]

/-- C10 witness: in `c10Env` the ledger would answer `hasVoted = True`
for every identity, yet the unconfigured client still returns the
successful simulated result and touches no RPC. -/
theorem cast_vote_simulates_when_unconfigured_witness :
    cast_vote_on_blockchain c10Env "0xv" "P1" =
      (simulatedResult c10Env "0xv" "P1"
        "Vote recorded (simulated - blockchain not configured)", [])
    ∧ RpcOp.hasVoted ∉ (cast_vote_on_blockchain c10Env "0xv" "P1").2
    ∧ RpcOp.isVotingActive ∉ (cast_vote_on_blockchain c10Env "0xv" "P1").2 :=
  cast_vote_simulates_when_unconfigured c10Env "0xv" "P1" rfl

/-- C2 counterexample: in `c2Env` a lower-level RPC call raises during
`cast_vote_on_blockchain` (the `isVotingActive` call), yet the call does
NOT return a Simulated result: the exception is absorbed by the inner
`try/except`, the flow continues, and the vote is confirmed on chain with
the real transaction hash, not the placeholder hash. -/
theorem cast_vote_raise_can_still_confirm :
    c2Env.votingActiveCall = Except.error ()
    ∧ (cast_vote_on_blockchain c2Env "0xvoter" "P1").1 =
        { success := true, transactionHash := some "0xonchain",
          blockNumber := some 42,
          message := "Vote successfully recorded on blockchain" }
    ∧ (cast_vote_on_blockchain c2Env "0xvoter" "P1").1 ≠
        simulatedResult c2Env "0xvoter" "P1"
          "Vote recorded (simulated due to blockchain error)"
    ∧ (cast_vote_on_blockchain c2Env "0xvoter" "P1").1.transactionHash ≠
        some (simulatedTxHash c2Env "0xvoter" "P1") := by
  refine ⟨rfl, rfl, ?_, ?_⟩ <;> decide

/-- C2 amended: the degrade-to-Simulated guarantee holds for the
connectivity probe and for exceptions that reach
`cast_vote_on_blockchain`'s own top-level handler (any raise in the
build/sign/broadcast/confirmation-wait phase): in both cases the call
returns a successful Simulated result whose placeholder transaction
identifier hashes the identity, party and submission time.  Exceptions in
the `hasVoted` re-check, the `isVotingActive` check and gas estimation
are absorbed at those call sites (yielding `False`, continuing, or the
default gas limit) and need not produce a Simulated result (see the
counterexample).  No path propagates an exception: the function is total
and every path returns a structured result dict. -/
theorem cast_vote_degrade_policy (env : ChainEnv) (voterHash partyId : String)
    (hc : env.contractLoaded = true) :
    (env.connectionOk = false →
      (cast_vote_on_blockchain env voterHash partyId).1 =
        simulatedResult env voterHash partyId
          "Vote recorded (simulated - connection failed)")
    ∧ (env.connectionOk = true →
        (has_voter_voted env voterHash).1 = false →
        env.votingActiveCall ≠ .ok false →
        env.broadcastCall = .error () →
        (cast_vote_on_blockchain env voterHash partyId).1 =
          simulatedResult env voterHash partyId
            "Vote recorded (simulated due to blockchain error)") := by
  constructor
  · intro hconn
    simp [cast_vote_on_blockchain, test_connection, hc, hconn]
  · intro hconn hhv hva hbr
    rcases hpair : has_voter_voted env voterHash with ⟨hv, t1⟩
    rw [hpair] at hhv
    simp only at hhv
    subst hhv
    rcases hvac : env.votingActiveCall with u | b
    · simp [cast_vote_on_blockchain, test_connection, hc, hconn, hpair, hvac, hbr]
    · cases b
      · exact absurd hvac hva
      · simp [cast_vote_on_blockchain, test_connection, hc, hconn, hpair, hvac, hbr]

/-- C2 witness: the amended claim at concrete environments — a failing
probe yields the connection-failed Simulated result, and a raising
broadcast yields the blockchain-error Simulated result. -/
theorem cast_vote_degrade_policy_witness :
    (cast_vote_on_blockchain { c2Env with connectionOk := false } "0xv" "P1").1 =
      simulatedResult { c2Env with connectionOk := false } "0xv" "P1"
        "Vote recorded (simulated - connection failed)"
    ∧ (cast_vote_on_blockchain
        { c2Env with votingActiveCall := .ok true, broadcastCall := .error () }
        "0xv" "P1").1 =
      simulatedResult { c2Env with votingActiveCall := .ok true, broadcastCall := .error () }
        "0xv" "P1" "Vote recorded (simulated due to blockchain error)" :=
  ⟨(cast_vote_degrade_policy { c2Env with connectionOk := false } "0xv" "P1" rfl).1 rfl,
   (cast_vote_degrade_policy
      { c2Env with votingActiveCall := .ok true, broadcastCall := .error () }
      "0xv" "P1" rfl).2 rfl rfl (by simp) rfl⟩

/-- Helper: every non-committed exit of `CastVoteView.post` returns the
local store exactly as it found it. -/
theorem post_state_unchanged_unless_committed (env : ChainEnv)
    (cvr : Option VoteRecord) (db : LocalDB) (req : PostRequest) :
    (post env cvr db req).2.1 = db
      ∨ ∃ tx, (post env cvr db req).1 = PostResponse.voteCastSuccessfully tx := by
  unfold post
  repeat' first
    | exact Or.inl rfl
    | exact Or.inr ⟨_, rfl⟩
    | split
    | dsimp only

/-- C3: the ledger submit runs before any local mutation.  First conjunct
(frame): on every exit other than the committed success — in particular
on the "Blockchain vote failed" exit taken when `cast_vote_on_blockchain`
answers `success: False` — the local store is returned untouched: no
`Vote` row is created, no voter's `has_voted` flag changes, and no
blockchain `VoteRecord` is written.  Second conjunct: whenever the flow
reaches the submit (request parsed, voter and party found, no local
duplicate, ledger duplicate check negative, session active) and the
submit answers unsuccessfully, the response is exactly the
"Blockchain vote failed" rejection carrying the submit's message, with
the store unchanged. -/
theorem ledger_submit_precedes_local_commit (env : ChainEnv)
    (cvr : Option VoteRecord) (db : LocalDB) :
    (∀ req : PostRequest,
      (∀ tx, (post env cvr db req).1 ≠ PostResponse.voteCastSuccessfully tx) →
      (post env cvr db req).2.1 = db)
    ∧ ∀ (pid email : String) (voter : Voter),
        findVoter db email = some voter →
        db.partyIds.contains pid = true →
        db.votes.any (fun w => w.voterId == voter.id) = false →
        (has_voter_voted env
          (generate_voter_hash env voter.email voter.aadhaarNumber voter.id)).1 = false →
        db.activeSessionExists = true →
        (cast_vote_on_blockchain env
          (generate_voter_hash env voter.email voter.aadhaarNumber voter.id) pid).1.success
          = false →
        post env cvr db { partyId := some pid, sessionVerifiedEmail := some email } =
          (PostResponse.blockchainVoteFailed
            (cast_vote_on_blockchain env
              (generate_voter_hash env voter.email voter.aadhaarNumber voter.id) pid).1.message,
           db,
           (has_voter_voted env
             (generate_voter_hash env voter.email voter.aadhaarNumber voter.id)).2
             ++ (cast_vote_on_blockchain env
                  (generate_voter_hash env voter.email voter.aadhaarNumber voter.id) pid).2) := by
  constructor
  · intro req hnc
    rcases post_state_unchanged_unless_committed env cvr db req with h | ⟨tx, htx⟩
    · exact h
    · exact absurd htx (hnc tx)
  · intro pid email voter hf hcont hany hhv hsess hfail
    rcases hp1 : has_voter_voted env
        (generate_voter_hash env voter.email voter.aadhaarNumber voter.id) with ⟨hv, t1⟩
    rw [hp1] at hhv
    simp only at hhv
    subst hhv
    rcases hp2 : cast_vote_on_blockchain env
        (generate_voter_hash env voter.email voter.aadhaarNumber voter.id) pid with ⟨res, t2⟩
    rw [hp2] at hfail
    simp only at hfail
    have hmem : pid ∈ db.partyIds := by simpa using hcont
    simp [post, hf, hmem, hany, hsess, hp1, hp2, hfail]

/-- C3 witness: with a fresh voter, an open session and a ledger contract
that reports voting inactive, the submit is rejected, the coordinator
answers "Blockchain vote failed" and the store is byte-for-byte the input
store. -/
theorem ledger_submit_precedes_local_commit_witness :
    post cRejectEnv none cDbFresh
        { partyId := some "P1", sessionVerifiedEmail := some "a@b.example" } =
      (PostResponse.blockchainVoteFailed "Voting is not currently active on the blockchain",
       cDbFresh,
       [RpcOp.hasVoted, RpcOp.getLatestBlock, RpcOp.hasVoted, RpcOp.isVotingActive]) :=
  (ledger_submit_precedes_local_commit cRejectEnv none cDbFresh).2
    "P1" "a@b.example" { cVoter with hasVoted := false } rfl rfl rfl rfl rfl rfl

/-- C8: for an identity whose vote is already committed locally, `post`
answers the "already cast your vote" rejection, leaves the store
untouched, and its ledger trace is empty — the local duplicate check
short-circuits the flow before the ledger duplicate check and before any
ledger broadcast. -/
theorem local_duplicate_check_short_circuits (env : ChainEnv)
    (cvr : Option VoteRecord) (db : LocalDB) (pid email : String) (voter : Voter)
    (hf : findVoter db email = some voter)
    (hcont : db.partyIds.contains pid = true)
    (hany : db.votes.any (fun w => w.voterId == voter.id) = true) :
    post env cvr db { partyId := some pid, sessionVerifiedEmail := some email } =
      (PostResponse.alreadyVotedLocally, db, []) := by
  have hmem : pid ∈ db.partyIds := by simpa using hcont
  simp [post, hf, hmem, hany]

/-- C8 witness: a store already holding `cVoter`'s vote answers
`alreadyVotedLocally` with an empty ledger trace, in an environment whose
ledger and broadcast are live. -/
theorem local_duplicate_check_short_circuits_witness :
    post c2Env none cDbVoted
        { partyId := some "P1", sessionVerifiedEmail := some "a@b.example" } =
      (PostResponse.alreadyVotedLocally, cDbVoted, []) :=
  local_duplicate_check_short_circuits c2Env none cDbVoted "P1" "a@b.example"
    cVoter rfl rfl rfl

/-- Helper: the audit loop carries every stored record through unchanged,
whether it completes or unwinds at the dead mutation site. -/
theorem audit_loop_store_eq (o : String → String → String → Bool) :
    ∀ (l : List VoteRecord) (v f : Nat), (audit_loop o l v f).2 = l := by
  intro l
  induction l with
  | nil => intro v f; rfl
  | cons r rs ih =>
    intro v f
    rw [audit_loop]
    dsimp only
    split
    · split
      · rfl
      · rcases h : audit_loop o rs (v + 1) f with ⟨res, rs2⟩
        have h2 := ih (v + 1) f
        rw [h] at h2
        simpa [h] using h2
    · rcases h : audit_loop o rs v f.succ with ⟨res, rs2⟩
      have h2 := ih v f.succ
      rw [h] at h2
      simpa [h] using h2

/-- Helper: a block of records that all verify and whose `is_verified`
property already reads true only advances `verified_count`. -/
theorem audit_loop_replicate_verified (o : String → String → String → Bool)
    (g : VoteRecord) (hg : o g.voterHash g.partyId g.txHash = true)
    (hv : voteRecord_is_verified g = true) :
    ∀ (n : Nat) (rest : List VoteRecord) (v f : Nat),
      (audit_loop o (List.replicate n g ++ rest) v f).1 =
        (audit_loop o rest (v + n) f).1 := by
  intro n
  induction n with
  | zero => intro rest v f; simp
  | succ k ih =>
    intro rest v f
    rw [List.replicate_succ, List.cons_append, audit_loop]
    dsimp only
    rw [hg]
    simp only [if_true, hv, Bool.not_true]
    rcases h : audit_loop o (List.replicate k g ++ rest) (v + 1) f with ⟨res, rs2⟩
    have h2 := ih rest (v + 1) f
    rw [h] at h2
    have harith : v + 1 + k = v + (k + 1) := by omega
    rw [harith] at h2
    simpa [h] using h2

/-- Helper: a block of records that all fail verification only advances
`failed_count`. -/
theorem audit_loop_replicate_failed (o : String → String → String → Bool)
    (b : VoteRecord) (hb : o b.voterHash b.partyId b.txHash = false) :
    ∀ (m : Nat) (v f : Nat),
      (audit_loop o (List.replicate m b) v f).1 = some (v, f + m) := by
  intro m
  induction m with
  | zero => intro v f; simp [audit_loop]
  | succ k ih =>
    intro v f
    rw [List.replicate_succ, audit_loop]
    dsimp only
    rw [hb]
    simp only [Bool.false_eq_true, if_false]
    rcases h : audit_loop o (List.replicate k b) v f.succ with ⟨res, rs2⟩
    have h2 := ih v f.succ
    rw [h] at h2
    have harith : f.succ + k = f + (k + 1) := by omega
    rw [harith] at h2
    simpa [h] using h2

/-- Helper: the report the audit computes on the 100-votes scenario. -/
theorem audit_scenario_report :
    (audit_vote_integrity auditScenarioOracle auditScenarioRecords).1 =
      { totalRecords := 100, verifiedCount := 95, failedCount := 5,
        integrityPercentage := 95, status := "warning" } := by
  have hgood := audit_loop_replicate_verified auditScenarioOracle auditGoodRecord
    rfl rfl 95 (List.replicate 5 auditBadRecord) 0 0
  have hbad := audit_loop_replicate_failed auditScenarioOracle auditBadRecord
    rfl 5 95 0
  simp only [Nat.zero_add] at hgood hbad
  have hloop : (audit_loop auditScenarioOracle auditScenarioRecords 0 0).1 =
      some (95, 5) := by
    unfold auditScenarioRecords
    rw [hgood, hbad]
  rw [audit_vote_integrity]
  rcases h : audit_loop auditScenarioOracle auditScenarioRecords 0 0 with ⟨res, rs2⟩
  rw [h] at hloop
  simp only at hloop
  subst hloop
  simp only [auditScenarioRecords, List.length_append, List.length_replicate,
    AuditReport.mk.injEq]
  norm_num

/-- C5 counterexample: the 100-committed-votes scenario with 95 matching
ledger events and 5 mismatches yields `verified_count = 95`,
`failed_count = 5` and `integrity_percentage = 95.0` as the claim says,
but its classification is `'warning'`, not the healthy `'success'`: the
source classifies `'success'` only when the percentage is STRICTLY
greater than 95, so the claimed `≥ 95` boundary fails at exactly 95. -/
theorem audit_at_95_percent_not_healthy :
    (audit_vote_integrity auditScenarioOracle auditScenarioRecords).1 =
      { totalRecords := 100, verifiedCount := 95, failedCount := 5,
        integrityPercentage := 95, status := "warning" }
      ∧ "warning" ≠ "success" :=
  ⟨audit_scenario_report, by decide⟩

/-- C5 amended: the audit tallies `verified_count` and `failed_count`
(the mismatch count) and reports
`integrity_percentage = verified_count / total_records * 100` (100 when
there are no records), but classifies the healthy `'success'` status only
when the percentage is STRICTLY greater than 95; at the 95.0 boundary —
as in the 100-votes/95-matching scenario — it reports `'warning'`. -/
theorem audit_classification_is_strict (oracle : String → String → String → Bool)
    (store : List VoteRecord) :
    ((audit_vote_integrity auditScenarioOracle auditScenarioRecords).1 =
      { totalRecords := 100, verifiedCount := 95, failedCount := 5,
        integrityPercentage := 95, status := "warning" })
    ∧ ((audit_vote_integrity oracle store).1.status = "success" ↔
        95 < (audit_vote_integrity oracle store).1.integrityPercentage)
    ∧ (audit_vote_integrity oracle []).1.integrityPercentage = 100 := by
  refine ⟨audit_scenario_report, ?_, rfl⟩
  rw [audit_vote_integrity]
  rcases h : audit_loop oracle store 0 0 with ⟨res, rs2⟩
  cases res with
  | none => simp
  | some p =>
    rcases p with ⟨v, f⟩
    dsimp only
    split
    · simp_all
    · simp_all

/-- C6: a run of `audit_vote_integrity` never mutates any stored
`VoteRecord`: for every oracle and every stored table the table after the
run is identical, field for field, to the table before it, whether each
record's ledger event verified or mismatched.  This holds because the
only write in the loop — `record.is_verified = True` followed by
`record.save()` — assigns to `VoteRecord.is_verified`, which
`blockchain/models.py` defines as a read-only `@property` (the model has
no such column), so the assignment raises `AttributeError` before
`save()` can run and the engine's top-level handler turns the run into
the zeroed error report, still without touching any record. -/
theorem audit_run_never_mutates_records
    (oracle : String → String → String → Bool) (store : List VoteRecord) :
    (audit_vote_integrity oracle store).2 = store := by
  have hstore := audit_loop_store_eq oracle store 0 0
  rw [audit_vote_integrity]
  rcases h : audit_loop oracle store 0 0 with ⟨res, rs2⟩
  rw [h] at hstore
  simp only at hstore
  subst hstore
  cases res with
  | none => rfl
  | some p => rcases p with ⟨v, f⟩; rfl

end VotingSpec
